import Mathlib

/-
Verification of the project lifecycle and snapshot-versioning subsystem of
`fx_env_kaustubh_mod.py` (Houdini project manager).

The script is embedded shallowly: the filesystem is an association list from
paths (lists of components) to entries (directory, file with opaque content,
or symbolic link with a target path).  Every `os` / `shutil` / `glob` call the
script performs is translated into an executable Lean function on this state,
and each Python function of the script becomes a Lean definition of the same
name threading the filesystem state explicitly.  Fallible operations return
the (possibly partially mutated) state together with an optional error, since
Python exceptions leave already-performed mutations in place.
-/

namespace FxEnv

/-- Paths are lists of components, e.g. `os.path.join(a, b)` is `a ++ [b]`. -/
abbrev FsPath := List String

/-- An entry of the modelled filesystem: a directory, a regular file with
opaque content, or a symbolic link storing its target path. -/
inductive Entry where
  | dir : Entry
  | file (content : String) : Entry
  | symlink (target : FsPath) : Entry
deriving DecidableEq, Repr

/-- The filesystem state: an association list from absolute paths to entries.
The first binding for a path wins; `FS.set` keeps keys unique. -/
abbrev FS := List (FsPath × Entry)

/-- Look up the entry stored at a path (no symlink resolution). -/
def FS.lookup (fs : FS) (p : FsPath) : Option Entry :=
  match fs with
  | [] => none
  | (q, e) :: rest => if q = p then some e else FS.lookup rest p

/-- Store an entry at a path, replacing any previous binding. -/
def FS.set (fs : FS) (p : FsPath) (e : Entry) : FS :=
  (p, e) :: fs.filter (fun qe => qe.1 ≠ p)

/-- Name of `q` as a direct child of directory `p`, if it is one. -/
def childNameOf (p q : FsPath) : Option String :=
  if q.take p.length = p then
    match q.drop p.length with
    | [n] => some n
    | _ => none
  else none

/-- Names of the direct children of a directory, in storage order
(`os.listdir`; enumeration order is unspecified in the spec). -/
def FS.children (fs : FS) (p : FsPath) : List String :=
  fs.filterMap (fun qe => childNameOf p qe.1)

/-- Resolve one level of symbolic link (the script never builds link chains). -/
def FS.resolve (fs : FS) (p : FsPath) : Option Entry :=
  match fs.lookup p with
  | some (.symlink t) => fs.lookup t
  | e => e

/-- Model of `os.path.islink`: true iff the entry itself is a symlink. -/
def os_path_islink (fs : FS) (p : FsPath) : Bool :=
  match fs.lookup p with
  | some (.symlink _) => true
  | _ => false

/-- Model of `os.path.isdir`: follows symlinks, true iff a directory. -/
def os_path_isdir (fs : FS) (p : FsPath) : Bool :=
  match fs.resolve p with
  | some .dir => true
  | _ => false

/-- Model of `os.path.exists`: follows symlinks. -/
def os_path_exists (fs : FS) (p : FsPath) : Bool :=
  (fs.resolve p).isSome

/-- Errors the modelled OS calls can raise (Python `OSError` subclasses). -/
inductive OSError where
  | fileExists (p : FsPath)
  | notADirectory (p : FsPath)
  | isADirectory (p : FsPath)
  | notFound (p : FsPath)
deriving DecidableEq, Repr

/-- Conflict errors ("path already occupied") as opposed to not-found. -/
def OSError.isConflict : OSError → Bool
  | .fileExists _ => true
  | .notADirectory _ => true
  | .isADirectory _ => true
  | .notFound _ => false

/-- Nonempty path initial segments of `p` in increasing length, ending in `p`
itself: the directories `os.makedirs` visits. -/
def pathInits (p : FsPath) : List FsPath :=
  (List.range p.length).map (fun i => p.take (i + 1))

/-- Walk of `os.makedirs` over the given initial segments: intermediate
directories are created when missing and accepted when already directories
(also via a symlink to a directory); the final component must not exist yet,
else `FileExistsError`, exactly as `os.makedirs` without `exist_ok`. -/
def makedirsFrom (fs : FS) (inits : List FsPath) : FS × Option OSError :=
  match inits with
  | [] => (fs, none)
  | [q] =>
    match fs.lookup q with
    | none => (fs.set q .dir, none)
    | some _ => (fs, some (.fileExists q))
  | q :: rest =>
    match fs.lookup q with
    | none => makedirsFrom (fs.set q .dir) rest
    | some .dir => makedirsFrom fs rest
    | some (.symlink t) =>
      match fs.lookup t with
      | some .dir => makedirsFrom fs rest
      | _ => (fs, some (.notADirectory q))
    | some (.file _) => (fs, some (.notADirectory q))

/-- Model of `os.makedirs(p)`. -/
def makedirs (fs : FS) (p : FsPath) : FS × Option OSError :=
  makedirsFrom fs (pathInits p)

/-- Model of `ensure_directory_exists(directory)`: create the directory (with parents)
iff `os.path.isdir` is false. -/
def ensure_directory_exists (fs : FS) (directory : FsPath) : FS × Option OSError :=
  if os_path_isdir fs directory then (fs, none)
  else makedirs fs directory

/-- Model of `os.symlink(target, link_path)`: fails with `FileExistsError`
when anything (including a symlink) already occupies `link_path`. -/
def os_symlink (fs : FS) (target : FsPath) (link_path : FsPath) : FS × Option OSError :=
  match fs.lookup link_path with
  | none => (fs.set link_path (.symlink target), none)
  | some _ => (fs, some (.fileExists link_path))

/-- Sequencing of fallible steps: a raised error aborts the rest of the
function body but keeps the mutations already performed. -/
def andThen (r : FS × Option OSError) (f : FS → FS × Option OSError) : FS × Option OSError :=
  match r with
  | (fs, none) => f fs
  | (fs, some e) => (fs, some e)

/-- The two root directories the script reads from the environment
(`HOUDINI_FILES_DIR` and `HOUDINI_PROJECT_DIR`). -/
structure Config where
  FILES_DIR : FsPath
  PROJECT_DIR : FsPath
deriving DecidableEq, Repr

/-- Model of `ensure_directories_and_symlinks(project_name)`: project directory and
`HIP`, `REF`, `RENDER`, `COMP` (the `required_dirs` loop, unrolled), the `GEO`
directory under `PROJECT_DIR`, `FLIP`, then the `GEO` symlink, which is only
created when `os.path.islink` is false at that moment. -/
def ensure_directories_and_symlinks (cfg : Config) (fs : FS) (project_name : String) :
    FS × Option OSError :=
  let project_path := cfg.FILES_DIR ++ [project_name]
  andThen (ensure_directory_exists fs project_path) fun fs =>
  andThen (ensure_directory_exists fs (project_path ++ ["HIP"])) fun fs =>
  andThen (ensure_directory_exists fs (project_path ++ ["REF"])) fun fs =>
  andThen (ensure_directory_exists fs (project_path ++ ["RENDER"])) fun fs =>
  andThen (ensure_directory_exists fs (project_path ++ ["COMP"])) fun fs =>
  andThen (ensure_directory_exists fs (cfg.PROJECT_DIR ++ [project_name, "GEO"])) fun fs =>
  andThen (ensure_directory_exists fs (project_path ++ ["FLIP"])) fun fs =>
  if os_path_islink fs (project_path ++ ["GEO"]) then (fs, none)
  else os_symlink fs (cfg.PROJECT_DIR ++ [project_name, "GEO"]) (project_path ++ ["GEO"])

/-- ASCII lowercasing of one character (Python `str.lower` on ASCII input).
Written structurally so that evaluation is pure kernel reduction. -/
def asciiLower (c : Char) : Char :=
  if 'A' ≤ c && c ≤ 'Z' then Char.ofNat (c.toNat + 32) else c

/-- Whitespace test of Python `str.strip()` (ASCII fragment). -/
def isPySpace (c : Char) : Bool :=
  c == ' ' || c == '\t' || c == '\n' || c == '\r'

/-- Model of Python `str.strip()`: drop whitespace on both ends. -/
def py_strip (s : String) : String :=
  String.mk (((s.toList.dropWhile isPySpace).reverse.dropWhile isPySpace).reverse)

/-- Model of Python `str.lower()` (ASCII). -/
def py_lower (s : String) : String :=
  String.mk (s.toList.map asciiLower)

/-- Model of Python `str.isdigit()` (ASCII): nonempty and all digits. -/
def py_isdigit (s : String) : Bool :=
  !s.toList.isEmpty && s.toList.all (fun c => '0' ≤ c && c ≤ '9')

/-- Model of Python `int()` applied to a digit string. -/
def py_int (s : String) : Nat :=
  s.toList.foldl (fun acc c => acc * 10 + (c.toNat - 48)) 0

/-- Suffix test `name.endswith(".hip")`: what the `*.hip` glob pattern
matches at the end of a name. -/
def hip_suffix (name : String) : Bool :=
  List.isSuffixOf ".hip".toList name.toList

/-- Leading-dot test: `glob`'s `*` does not match hidden files. -/
def dot_head (name : String) : Bool :=
  match name.toList with
  | c :: _ => c == '.'
  | [] => false

/-- Model of `glob.glob(os.path.join(dir, "*.hip"))`, returning base names:
direct children whose name ends in `.hip` and does not start with a dot. -/
def glob_hip (fs : FS) (dir : FsPath) : List String :=
  (fs.children dir).filter (fun name => hip_suffix name && !dot_head name)

/-- Model of `shutil.copy(src, dst_dir)`: copy the file's content to
`dst_dir/basename`, overwriting; fails on a directory or missing source. -/
def shutil_copy (fs : FS) (src : FsPath) (dst_dir : FsPath) : FS × Option OSError :=
  match fs.resolve src, src.getLast? with
  | some (.file c), some name => (fs.set (dst_dir ++ [name]) (.file c), none)
  | some .dir, _ => (fs, some (.isADirectory src))
  | _, _ => (fs, some (.notFound src))

/-- The copy loop of backup/restore: copies files one by one, stopping at the
first error (no rollback of files already copied). -/
def copy_files (fs : FS) (src_dir : FsPath) (names : List String) (dst_dir : FsPath) :
    FS × Option OSError :=
  match names with
  | [] => (fs, none)
  | n :: rest =>
    match shutil_copy fs (src_dir ++ [n]) dst_dir with
    | (fs', none) => copy_files fs' src_dir rest dst_dir
    | (fs', some e) => (fs', some e)

/-- Observable outcome of `create_backup`. -/
inductive BackupOutcome where
  | osError (e : OSError)
  | noHipFiles
  | backedUp (files : List String)
deriving DecidableEq, Repr

/-- Model of `create_backup(project_dir, backup_dir)`: defaults the backup root to
`project_dir/BACKUPS`, appends the timestamp (here an explicit argument, the
clock being external input), creates that directory, then globs `*.hip` in
the project directory; reports "No .hip files found for backup." when the
glob is empty, otherwise copies each file into the backup directory. -/
def create_backup (fs : FS) (project_dir : FsPath) (backup_dir_arg : Option FsPath)
    (timestamp : String) : FS × BackupOutcome :=
  let backup_root := backup_dir_arg.getD (project_dir ++ ["BACKUPS"])
  let backup_dir := backup_root ++ [timestamp]
  match ensure_directory_exists fs backup_dir with
  | (fs', some e) => (fs', .osError e)
  | (fs', none) =>
    let hip_files := glob_hip fs' project_dir
    if hip_files.isEmpty then (fs', .noHipFiles)
    else
      match copy_files fs' project_dir hip_files backup_dir with
      | (fs'', none) => (fs'', .backedUp hip_files)
      | (fs'', some e) => (fs'', .osError e)

/-- Observable outcome of `restore_backup`. -/
inductive RestoreOutcome where
  | osError (e : OSError)
  | snapshotNotFound
  | noHipFilesInBackup
  | restored (files : List String)
deriving DecidableEq, Repr

/-- Model of `restore_backup(project_dir, timestamp)`: if `project_dir/BACKUPS/timestamp`
does not exist, reports "No backup found for the specified timestamp" and
stops; otherwise creates `project_dir/RESTORED_<timestamp>`, globs `*.hip` in
the snapshot, reports "No .hip files found in the backup." when empty, else
copies each file into the restore directory. -/
def restore_backup (fs : FS) (project_dir : FsPath) (timestamp : String) :
    FS × RestoreOutcome :=
  let backup_dir := project_dir ++ ["BACKUPS", timestamp]
  if os_path_exists fs backup_dir then
    let restore_dir := project_dir ++ ["RESTORED_" ++ timestamp]
    match ensure_directory_exists fs restore_dir with
    | (fs', some e) => (fs', .osError e)
    | (fs', none) =>
      let hip_files := glob_hip fs' backup_dir
      if hip_files.isEmpty then (fs', .noHipFilesInBackup)
      else
        match copy_files fs' backup_dir hip_files restore_dir with
        | (fs'', none) => (fs'', .restored hip_files)
        | (fs'', some e) => (fs'', .osError e)
  else (fs, .snapshotNotFound)

/-- The computation of the `projects` local of `list_recent_projects`:
immediate children of `FILES_DIR` that are directories. -/
def project_candidates (cfg : Config) (fs : FS) : List String :=
  (fs.children cfg.FILES_DIR).filter (fun name => os_path_isdir fs (cfg.FILES_DIR ++ [name]))

/-- Comparator of `sorted(key=getatime, reverse=True)`: `a` before `b` when
`a`'s access time is at least `b`'s. -/
def atimeDesc (cfg : Config) (atime : FsPath → Nat) (a b : String) : Bool :=
  decide (atime (cfg.FILES_DIR ++ [b]) ≤ atime (cfg.FILES_DIR ++ [a]))

/-- Model of `list_recent_projects(show_all)`: empty when `FILES_DIR` is missing or no
project subdirectory exists; otherwise the candidates sorted by last-access
time descending (`sorted(key=getatime, reverse=True)`, a stable sort),
truncated to the first 6 unless `show_all`.  The access-time table `atime` is
an input of the model, keyed by path as `os.path.getatime` is. -/
def list_recent_projects (cfg : Config) (fs : FS) (atime : FsPath → Nat) (show_all : Bool) :
    List String :=
  if os_path_exists fs cfg.FILES_DIR then
    let projects := project_candidates cfg fs
    if projects.isEmpty then []
    else
      let sorted := projects.mergeSort (atimeDesc cfg atime)
      if show_all then sorted else sorted.take 6
  else []

/-- Outcome of one pass through the body of `select_project` (the `else`
branches of the code recurse, modelled by the `retryPrompt` marker). -/
inductive SelectOutcome where
  | createdNew (name : String)
  | selectedExisting (name : String)
  | retryPrompt
deriving DecidableEq, Repr

/-- One pass through the body of `select_project`, given the displayed
candidate list, the raw choice line and the raw new-name line (the latter only
read on the `'0'` path).  The code applies `.strip().lower()` to the choice,
`.strip()` to the new name, and tests `choice.isdigit() and
1 <= int(choice) <= len(projects)` for the index branch.  The first component
is the resulting `CURRENT_PROJECT` state: it is assigned only after a
successful resolution, so a rejected input leaves it untouched. -/
def select_project_step (current : Option String) (projects : List String)
    (raw_choice : String) (raw_new_name : String) : Option String × SelectOutcome :=
  let choice := py_lower (py_strip raw_choice)
  if choice = "0" then
    let project_name := py_strip raw_new_name
    if project_name ≠ "" then (some project_name, .createdNew project_name)
    else (current, .retryPrompt)
  else if py_isdigit choice = true ∧ 1 ≤ py_int choice ∧ py_int choice ≤ projects.length then
    let name := projects.getD (py_int choice - 1) ""
    (some name, .selectedExisting name)
  else (current, .retryPrompt)

/-- One console input of the `interactive_mode` menu.  Choice `'1'` runs the
nested `select_project` dialogue, which in the code only returns once a
project name has been resolved; that resolved name is carried by the input. -/
inductive MenuInput where
  | selectChoice (name : String)
  | backupChoice
  | restoreTsChoice (timestamp : String)
  | exitChoice
  | badChoice (s : String)
deriving DecidableEq, Repr

/-- Observable events of a run of `interactive_mode`. -/
inductive Event where
  | projectSelected (name : String)
  | backupRun (project_path : FsPath)
  | restoreRun (project_path : FsPath) (timestamp : String)
  | noProjectError
  | invalidChoiceError
  | launchedXterm (name : String)
  | launchSkippedWarning
deriving DecidableEq, Repr

/-- Result of a run of `interactive_mode`: the event trace, each event paired
with the `project_name` state at the moment it happened, the final state, and
whether the loop was left through the exit choice (rather than by running out
of scripted input). -/
structure RunResult where
  trace : List (Option String × Event)
  final : Option String
  exited : Bool
deriving DecidableEq, Repr

/-- The `interactive_mode` loop over a scripted input list.  Choice `'2'`
(backup) and `'3'` (restore) run the snapshot operation only under
`if project_name:`, else print "No project selected."; choice `'4'` breaks,
after which the code launches xterm when a project is selected and warns
otherwise. -/
def interactive_loop (cfg : Config) : List MenuInput → Option String → RunResult
  | [], project_name => ⟨[], project_name, false⟩
  | inp :: rest, project_name =>
    match inp with
    | .selectChoice name =>
      let r := interactive_loop cfg rest (some name)
      ⟨(project_name, .projectSelected name) :: r.trace, r.final, r.exited⟩
    | .backupChoice =>
      match project_name with
      | some p =>
        let r := interactive_loop cfg rest (some p)
        ⟨(some p, .backupRun (cfg.FILES_DIR ++ [p])) :: r.trace, r.final, r.exited⟩
      | none =>
        let r := interactive_loop cfg rest none
        ⟨(none, .noProjectError) :: r.trace, r.final, r.exited⟩
    | .restoreTsChoice ts =>
      match project_name with
      | some p =>
        let r := interactive_loop cfg rest (some p)
        ⟨(some p, .restoreRun (cfg.FILES_DIR ++ [p]) ts) :: r.trace, r.final, r.exited⟩
      | none =>
        let r := interactive_loop cfg rest none
        ⟨(none, .noProjectError) :: r.trace, r.final, r.exited⟩
    | .exitChoice =>
      match project_name with
      | some p => ⟨[(some p, .launchedXterm p)], some p, true⟩
      | none => ⟨[(none, .launchSkippedWarning)], none, true⟩
    | .badChoice _ =>
      let r := interactive_loop cfg rest project_name
      ⟨(project_name, .invalidChoiceError) :: r.trace, r.final, r.exited⟩

/-- Entry state of `interactive_mode()`: it starts with `project_name = None`. -/
def interactive_mode (cfg : Config) (inputs : List MenuInput) : RunResult :=
  interactive_loop cfg inputs none

/-! ### Concrete states used to instantiate the theorems -/

/-- Sample root configuration: files root `FILES`, project-source root `PROJ`. -/
def sampleConfig : Config := ⟨["FILES"], ["PROJ"]⟩

/-- A provisioned-enough project directory holding no `.hip` file. -/
def emptyProjectFS : FS :=
  [(["FILES"], .dir), (["FILES", "proj"], .dir), (["FILES", "proj", "HIP"], .dir)]

/-- A project directory holding exactly the work files `a.hip` and `b.hip`
with opaque contents `A` and `B`. -/
def twoHipFS (A B : String) : FS :=
  [(["FILES", "proj"], .dir),
   (["FILES", "proj", "a.hip"], .file A),
   (["FILES", "proj", "b.hip"], .file B)]

/-- A state in which the project's `GEO` entry is a stale symbolic link
pointing somewhere other than the project-source `GEO` directory. -/
def staleLinkFS : FS := [(["FILES", "proj", "GEO"], .symlink ["ELSEWHERE"])]

/-- A state in which the project's `GEO` entry is occupied by a plain
directory (not a symlink). -/
def occupiedGeoFS : FS := [(["FILES", "proj", "GEO"], .dir)]

/-- A project with an existing, but empty, snapshot directory `BACKUPS/TS`. -/
def emptySnapshotFS : FS :=
  [(["FILES"], .dir), (["FILES", "proj"], .dir),
   (["FILES", "proj", "BACKUPS"], .dir), (["FILES", "proj", "BACKUPS", "TS"], .dir)]

/-- Three project directories under the files root (plus a stray file). -/
def threeProjectsFS : FS :=
  [(["FILES"], .dir), (["FILES", "p1"], .dir), (["FILES", "p2"], .dir),
   (["FILES", "p3"], .dir), (["FILES", "x.hip"], .file "z")]

/-- Sample access-time table for `threeProjectsFS`: `p2` newest, `p1` oldest. -/
def sampleAtime : FsPath → Nat
  | ["FILES", "p1"] => 10
  | ["FILES", "p2"] => 30
  | ["FILES", "p3"] => 20
  | _ => 0

/-! ### Basic lemmas about the filesystem model -/

theorem lookup_filter_ne (fs : FS) (q p : FsPath) (h : q ≠ p) :
    FS.lookup (fs.filter (fun qe => qe.1 ≠ q)) p = fs.lookup p := by
  induction fs with
  | nil => rfl
  | cons hd tl ih =>
    simp only [ne_eq, decide_not] at ih
    by_cases hq : hd.1 = q
    · have hp : ¬hd.1 = p := by rw [hq]; exact h
      simp [List.filter_cons, hq, FS.lookup, hp, ih, h]
    · by_cases hp : hd.1 = p
      · simp [List.filter_cons, hq, FS.lookup, hp, Ne.symm h]
      · simp [List.filter_cons, hq, FS.lookup, hp, ih]

theorem lookup_set (fs : FS) (q : FsPath) (e : Entry) (p : FsPath) :
    (fs.set q e).lookup p = if q = p then some e else fs.lookup p := by
  show (if q = p then some e else FS.lookup (fs.filter (fun qe => qe.1 ≠ q)) p)
      = if q = p then some e else fs.lookup p
  by_cases h : q = p
  · rw [if_pos h, if_pos h]
  · rw [if_neg h, if_neg h, lookup_filter_ne fs q p h]

/-- Relation between a filesystem and an extension of it produced by creating
fresh directories only: every path is either unchanged or was free and now
holds a directory. -/
def DirExtends (fs fs' : FS) : Prop :=
  ∀ p, fs'.lookup p = fs.lookup p ∨ (fs.lookup p = none ∧ fs'.lookup p = some .dir)

theorem dirExtends_refl (fs : FS) : DirExtends fs fs := fun _ => Or.inl rfl

theorem dirExtends_trans {fs fs' fs'' : FS}
    (h1 : DirExtends fs fs') (h2 : DirExtends fs' fs'') : DirExtends fs fs'' := by
  intro p
  rcases h2 p with h2p | ⟨h2n, h2d⟩
  · rcases h1 p with h1p | ⟨h1n, h1d⟩
    · exact Or.inl (h2p.trans h1p)
    · exact Or.inr ⟨h1n, h2p.trans h1d⟩
  · rcases h1 p with h1p | ⟨h1n, h1d⟩
    · exact Or.inr ⟨h1p ▸ h2n, h2d⟩
    · rw [h1d] at h2n; cases h2n

theorem dirExtends_set {fs : FS} {q : FsPath} (hq : fs.lookup q = none) :
    DirExtends fs (fs.set q .dir) := by
  intro p
  by_cases h : q = p
  · subst h; exact Or.inr ⟨hq, by rw [lookup_set]; simp⟩
  · exact Or.inl (by rw [lookup_set]; simp [h])

theorem lookup_some_of_dirExtends {fs fs' : FS} (h : DirExtends fs fs')
    {p : FsPath} {e : Entry} (hp : fs.lookup p = some e) : fs'.lookup p = some e := by
  rcases h p with hp' | ⟨hn, _⟩
  · rw [hp', hp]
  · rw [hp] at hn; cases hn

theorem islink_of_dirExtends {fs fs' : FS} (h : DirExtends fs fs') (p : FsPath) :
    os_path_islink fs' p = os_path_islink fs p := by
  unfold os_path_islink
  rcases h p with hp | ⟨hn, hd⟩
  · rw [hp]
  · rw [hn, hd]

theorem symlink_lookup_iff_of_dirExtends {fs fs' : FS} (h : DirExtends fs fs')
    (p : FsPath) (t : FsPath) :
    fs'.lookup p = some (.symlink t) ↔ fs.lookup p = some (.symlink t) := by
  rcases h p with hp | ⟨hn, hd⟩
  · rw [hp]
  · rw [hn, hd]; simp

theorem isdir_of_dirExtends {fs fs' : FS} (h : DirExtends fs fs') {p : FsPath}
    (hp : os_path_isdir fs p = true) : os_path_isdir fs' p = true := by
  unfold os_path_isdir FS.resolve at hp ⊢
  cases hl : fs.lookup p with
  | none => simp [hl] at hp
  | some e =>
    have hl' := lookup_some_of_dirExtends h hl
    cases e with
    | dir => simp [hl']
    | file c => simp [hl] at hp
    | symlink t =>
      cases ht : fs.lookup t with
      | none => simp [hl, ht] at hp
      | some et =>
        have ht' := lookup_some_of_dirExtends h ht
        cases et with
        | dir => simp [hl', ht']
        | file c => simp [hl, ht] at hp
        | symlink t' => simp [hl, ht] at hp

/-! ### Lemmas about `makedirs` and `ensure_directory_exists` -/

theorem makedirsFrom_dirExtends (inits : List FsPath) (fs : FS) :
    DirExtends fs (makedirsFrom fs inits).1 := by
  induction inits generalizing fs with
  | nil => exact dirExtends_refl fs
  | cons q rest ih =>
    cases rest with
    | nil =>
      cases hq : fs.lookup q with
      | none => simpa [makedirsFrom, hq] using dirExtends_set hq
      | some e => simp [makedirsFrom, hq, dirExtends_refl]
    | cons r rest' =>
      cases hq : fs.lookup q with
      | none =>
        simp only [makedirsFrom, hq]
        exact dirExtends_trans (dirExtends_set hq) (ih _)
      | some e =>
        cases e with
        | dir => simpa [makedirsFrom, hq] using ih fs
        | file c => simp [makedirsFrom, hq, dirExtends_refl]
        | symlink t =>
          cases ht : fs.lookup t with
          | none => simp [makedirsFrom, hq, ht, dirExtends_refl]
          | some et =>
            cases et with
            | dir => simpa [makedirsFrom, hq, ht] using ih fs
            | file c => simp [makedirsFrom, hq, ht, dirExtends_refl]
            | symlink t' => simp [makedirsFrom, hq, ht, dirExtends_refl]

theorem ensure_dirExtends (fs : FS) (d : FsPath) :
    DirExtends fs (ensure_directory_exists fs d).1 := by
  unfold ensure_directory_exists
  by_cases h : os_path_isdir fs d
  · simp [h, dirExtends_refl]
  · simp [h, makedirs, makedirsFrom_dirExtends]

theorem makedirsFrom_ok_last (inits : List FsPath) (fs fs' : FS) (q : FsPath)
    (hlast : inits.getLast? = some q) (h : makedirsFrom fs inits = (fs', none)) :
    fs'.lookup q = some .dir := by
  induction inits generalizing fs with
  | nil => simp at hlast
  | cons r rest ih =>
    cases rest with
    | nil =>
      simp at hlast
      subst hlast
      cases hr : fs.lookup r with
      | none =>
        simp [makedirsFrom, hr] at h
        rw [← h, lookup_set]
        simp
      | some e => simp [makedirsFrom, hr] at h
    | cons r' rest' =>
      have hlast' : (r' :: rest').getLast? = some q := by
        simpa [List.getLast?_cons_cons] using hlast
      cases hr : fs.lookup r with
      | none =>
        simp only [makedirsFrom, hr] at h
        exact ih _ hlast' h
      | some e =>
        cases e with
        | dir =>
          simp only [makedirsFrom, hr] at h
          exact ih _ hlast' h
        | file c => simp [makedirsFrom, hr] at h
        | symlink t =>
          cases ht : fs.lookup t with
          | none => simp [makedirsFrom, hr, ht] at h
          | some et =>
            cases et with
            | dir =>
              simp only [makedirsFrom, hr, ht] at h
              exact ih _ hlast' h
            | file c => simp [makedirsFrom, hr, ht] at h
            | symlink t' => simp [makedirsFrom, hr, ht] at h

theorem pathInits_getLast (p : FsPath) (hp : p ≠ []) : (pathInits p).getLast? = some p := by
  have hlen : 0 < p.length := List.length_pos.mpr hp
  unfold pathInits
  rw [List.getLast?_eq_getElem?]
  simp only [List.length_map, List.length_range]
  rw [List.getElem?_map]
  rw [List.getElem?_range (by omega)]
  have h1 : p.length - 1 + 1 = p.length := by omega
  simp [h1]

theorem ensure_ok_isdir {fs fs' : FS} {d : FsPath} (hd : d ≠ [])
    (h : ensure_directory_exists fs d = (fs', none)) : os_path_isdir fs' d = true := by
  unfold ensure_directory_exists at h
  by_cases hc : os_path_isdir fs d
  · rw [if_pos hc] at h
    cases h
    exact hc
  · rw [if_neg hc] at h
    have := makedirsFrom_ok_last (pathInits d) fs fs' d (pathInits_getLast d hd) h
    unfold os_path_isdir FS.resolve
    rw [this]

theorem ensure_of_isdir {fs : FS} {d : FsPath} (h : os_path_isdir fs d = true) :
    ensure_directory_exists fs d = (fs, none) := by
  unfold ensure_directory_exists
  rw [if_pos h]

theorem makedirsFrom_err_conflict (inits : List FsPath) (fs fs' : FS) (e : OSError)
    (h : makedirsFrom fs inits = (fs', some e)) : e.isConflict = true := by
  induction inits generalizing fs with
  | nil => simp [makedirsFrom] at h
  | cons r rest ih =>
    cases rest with
    | nil =>
      cases hr : fs.lookup r with
      | none => simp [makedirsFrom, hr, lookup_set] at h
      | some e' =>
        simp [makedirsFrom, hr] at h
        rw [← h.2, OSError.isConflict]
    | cons r' rest' =>
      cases hr : fs.lookup r with
      | none =>
        simp only [makedirsFrom, hr] at h
        exact ih _ h
      | some e' =>
        cases e' with
        | dir =>
          simp only [makedirsFrom, hr] at h
          exact ih _ h
        | file c =>
          simp [makedirsFrom, hr] at h
          rw [← h.2, OSError.isConflict]
        | symlink t =>
          cases ht : fs.lookup t with
          | none =>
            simp [makedirsFrom, hr, ht] at h
            rw [← h.2, OSError.isConflict]
          | some et =>
            cases et with
            | dir =>
              simp only [makedirsFrom, hr, ht] at h
              exact ih _ h
            | file c =>
              simp [makedirsFrom, hr, ht] at h
              rw [← h.2, OSError.isConflict]
            | symlink t' =>
              simp [makedirsFrom, hr, ht] at h
              rw [← h.2, OSError.isConflict]

theorem ensure_err_conflict {fs fs' : FS} {d : FsPath} {e : OSError}
    (h : ensure_directory_exists fs d = (fs', some e)) : e.isConflict = true := by
  unfold ensure_directory_exists at h
  by_cases hc : os_path_isdir fs d
  · rw [if_pos hc] at h; cases h
  · rw [if_neg hc] at h
    exact makedirsFrom_err_conflict _ fs fs' e h

theorem andThen_eq_ok {r : FS × Option OSError} {f : FS → FS × Option OSError} {fs' : FS}
    (h : andThen r f = (fs', none)) : ∃ fsm, r = (fsm, none) ∧ f fsm = (fs', none) := by
  obtain ⟨fs0, o⟩ := r
  cases o with
  | none => exact ⟨fs0, rfl, h⟩
  | some e => simp [andThen] at h

theorem andThen_ok (fs : FS) (f : FS → FS × Option OSError) :
    andThen (fs, none) f = f fs := rfl

theorem andThen_err (fs : FS) (e : OSError) (f : FS → FS × Option OSError) :
    andThen (fs, some e) f = (fs, some e) := rfl

theorem isdir_set_fresh {fs : FS} {sp : FsPath} {e : Entry} (hsp : fs.lookup sp = none)
    {p : FsPath} (h : os_path_isdir fs p = true) : os_path_isdir (fs.set sp e) p = true := by
  unfold os_path_isdir FS.resolve at h ⊢
  cases hl : fs.lookup p with
  | none => simp [hl] at h
  | some ep =>
    have hne : sp ≠ p := fun hx => by rw [hx, hl] at hsp; cases hsp
    cases ep with
    | dir => rw [lookup_set, if_neg hne, hl]
    | file c => simp [hl] at h
    | symlink t =>
      cases ht : fs.lookup t with
      | none => simp [hl, ht] at h
      | some et =>
        cases et with
        | dir =>
          have hnet : sp ≠ t := fun hx => by rw [hx, ht] at hsp; cases hsp
          rw [lookup_set, if_neg hne, hl]
          show (match (fs.set sp e).lookup t with | some Entry.dir => true | _ => false) = true
          rw [lookup_set, if_neg hnet, ht]
        | file c => simp [hl, ht] at h
        | symlink t' => simp [hl, ht] at h

/-- Decomposition of a successful provisioning run into its eight steps. -/
theorem provision_ok_anatomy {cfg : Config} {fs fs' : FS} {name : String}
    (h : ensure_directories_and_symlinks cfg fs name = (fs', none)) :
    ∃ fs1 fs2 fs3 fs4 fs5 fs6 fs7 : FS,
      ensure_directory_exists fs (cfg.FILES_DIR ++ [name]) = (fs1, none) ∧
      ensure_directory_exists fs1 ((cfg.FILES_DIR ++ [name]) ++ ["HIP"]) = (fs2, none) ∧
      ensure_directory_exists fs2 ((cfg.FILES_DIR ++ [name]) ++ ["REF"]) = (fs3, none) ∧
      ensure_directory_exists fs3 ((cfg.FILES_DIR ++ [name]) ++ ["RENDER"]) = (fs4, none) ∧
      ensure_directory_exists fs4 ((cfg.FILES_DIR ++ [name]) ++ ["COMP"]) = (fs5, none) ∧
      ensure_directory_exists fs5 (cfg.PROJECT_DIR ++ [name, "GEO"]) = (fs6, none) ∧
      ensure_directory_exists fs6 ((cfg.FILES_DIR ++ [name]) ++ ["FLIP"]) = (fs7, none) ∧
      (if os_path_islink fs7 ((cfg.FILES_DIR ++ [name]) ++ ["GEO"]) then (fs7, none)
       else os_symlink fs7 (cfg.PROJECT_DIR ++ [name, "GEO"])
              ((cfg.FILES_DIR ++ [name]) ++ ["GEO"])) = (fs', none) := by
  simp only [ensure_directories_and_symlinks] at h
  obtain ⟨fs1, h1, h⟩ := andThen_eq_ok h
  obtain ⟨fs2, h2, h⟩ := andThen_eq_ok h
  obtain ⟨fs3, h3, h⟩ := andThen_eq_ok h
  obtain ⟨fs4, h4, h⟩ := andThen_eq_ok h
  obtain ⟨fs5, h5, h⟩ := andThen_eq_ok h
  obtain ⟨fs6, h6, h⟩ := andThen_eq_ok h
  obtain ⟨fs7, h7, h⟩ := andThen_eq_ok h
  exact ⟨fs1, fs2, fs3, fs4, fs5, fs6, fs7, h1, h2, h3, h4, h5, h6, h7, h⟩

/-- A state that already has all seven directories and the `GEO` symlink is a
fixed point of provisioning: every step is a no-op. -/
theorem provision_eq_of_ready {cfg : Config} {fs : FS} {name : String}
    (d1 : os_path_isdir fs (cfg.FILES_DIR ++ [name]) = true)
    (d2 : os_path_isdir fs ((cfg.FILES_DIR ++ [name]) ++ ["HIP"]) = true)
    (d3 : os_path_isdir fs ((cfg.FILES_DIR ++ [name]) ++ ["REF"]) = true)
    (d4 : os_path_isdir fs ((cfg.FILES_DIR ++ [name]) ++ ["RENDER"]) = true)
    (d5 : os_path_isdir fs ((cfg.FILES_DIR ++ [name]) ++ ["COMP"]) = true)
    (d6 : os_path_isdir fs (cfg.PROJECT_DIR ++ [name, "GEO"]) = true)
    (d7 : os_path_isdir fs ((cfg.FILES_DIR ++ [name]) ++ ["FLIP"]) = true)
    (dl : os_path_islink fs ((cfg.FILES_DIR ++ [name]) ++ ["GEO"]) = true) :
    ensure_directories_and_symlinks cfg fs name = (fs, none) := by
  simp only [ensure_directories_and_symlinks]
  rw [ensure_of_isdir d1]; simp only [andThen_ok]
  rw [ensure_of_isdir d2]; simp only [andThen_ok]
  rw [ensure_of_isdir d3]; simp only [andThen_ok]
  rw [ensure_of_isdir d4]; simp only [andThen_ok]
  rw [ensure_of_isdir d5]; simp only [andThen_ok]
  rw [ensure_of_isdir d6]; simp only [andThen_ok]
  rw [ensure_of_isdir d7]; simp only [andThen_ok]
  have dl' : os_path_islink fs (cfg.FILES_DIR ++ [name, "GEO"]) = true := by
    have hx : (cfg.FILES_DIR ++ [name]) ++ ["GEO"] = cfg.FILES_DIR ++ [name, "GEO"] := by simp
    rw [← hx]; exact dl
  simp [dl, dl']

/-- C4.  Provisioning is idempotent: a second `ensure_directories_and_symlinks`
call on the state produced by a successful first call returns that state
unchanged (so the directory tree is identical and the second call created
zero new filesystem entries — no directory and no symlink). -/
theorem C4_provision_idempotent (cfg : Config) (fs fs' : FS) (name : String)
    (h : ensure_directories_and_symlinks cfg fs name = (fs', none)) :
    ensure_directories_and_symlinks cfg fs' name = (fs', none) := by
  obtain ⟨fs1, fs2, fs3, fs4, fs5, fs6, fs7, h1, h2, h3, h4, h5, h6, h7, hfin⟩ :=
    provision_ok_anatomy h
  have E1 : DirExtends fs1 fs2 := by
    have t := ensure_dirExtends fs1 ((cfg.FILES_DIR ++ [name]) ++ ["HIP"]); rw [h2] at t; exact t
  have E2 : DirExtends fs2 fs3 := by
    have t := ensure_dirExtends fs2 ((cfg.FILES_DIR ++ [name]) ++ ["REF"]); rw [h3] at t; exact t
  have E3 : DirExtends fs3 fs4 := by
    have t := ensure_dirExtends fs3 ((cfg.FILES_DIR ++ [name]) ++ ["RENDER"]); rw [h4] at t; exact t
  have E4 : DirExtends fs4 fs5 := by
    have t := ensure_dirExtends fs4 ((cfg.FILES_DIR ++ [name]) ++ ["COMP"]); rw [h5] at t; exact t
  have E5 : DirExtends fs5 fs6 := by
    have t := ensure_dirExtends fs5 (cfg.PROJECT_DIR ++ [name, "GEO"]); rw [h6] at t; exact t
  have E6 : DirExtends fs6 fs7 := by
    have t := ensure_dirExtends fs6 ((cfg.FILES_DIR ++ [name]) ++ ["FLIP"]); rw [h7] at t; exact t
  have E27 : DirExtends fs2 fs7 :=
    dirExtends_trans E2 (dirExtends_trans E3 (dirExtends_trans E4 (dirExtends_trans E5 E6)))
  have E17 : DirExtends fs1 fs7 := dirExtends_trans E1 E27
  have E37 : DirExtends fs3 fs7 := dirExtends_trans E3 (dirExtends_trans E4 (dirExtends_trans E5 E6))
  have E47 : DirExtends fs4 fs7 := dirExtends_trans E4 (dirExtends_trans E5 E6)
  have E57 : DirExtends fs5 fs7 := dirExtends_trans E5 E6
  have D1 : os_path_isdir fs7 (cfg.FILES_DIR ++ [name]) = true :=
    isdir_of_dirExtends E17 (ensure_ok_isdir (by simp) h1)
  have D2 : os_path_isdir fs7 ((cfg.FILES_DIR ++ [name]) ++ ["HIP"]) = true :=
    isdir_of_dirExtends E27 (ensure_ok_isdir (by simp) h2)
  have D3 : os_path_isdir fs7 ((cfg.FILES_DIR ++ [name]) ++ ["REF"]) = true :=
    isdir_of_dirExtends E37 (ensure_ok_isdir (by simp) h3)
  have D4 : os_path_isdir fs7 ((cfg.FILES_DIR ++ [name]) ++ ["RENDER"]) = true :=
    isdir_of_dirExtends E47 (ensure_ok_isdir (by simp) h4)
  have D5 : os_path_isdir fs7 ((cfg.FILES_DIR ++ [name]) ++ ["COMP"]) = true :=
    isdir_of_dirExtends E57 (ensure_ok_isdir (by simp) h5)
  have D6 : os_path_isdir fs7 (cfg.PROJECT_DIR ++ [name, "GEO"]) = true :=
    isdir_of_dirExtends E6 (ensure_ok_isdir (by simp) h6)
  have D7 : os_path_isdir fs7 ((cfg.FILES_DIR ++ [name]) ++ ["FLIP"]) = true :=
    ensure_ok_isdir (by simp) h7
  by_cases hl : os_path_islink fs7 ((cfg.FILES_DIR ++ [name]) ++ ["GEO"]) = true
  · rw [if_pos hl] at hfin
    have hfs : fs7 = fs' := congrArg Prod.fst hfin
    subst hfs
    exact provision_eq_of_ready D1 D2 D3 D4 D5 D6 D7 hl
  · rw [if_neg hl] at hfin
    unfold os_symlink at hfin
    cases hsp : fs7.lookup ((cfg.FILES_DIR ++ [name]) ++ ["GEO"]) with
    | none =>
      rw [hsp] at hfin
      have hfs : fs7.set ((cfg.FILES_DIR ++ [name]) ++ ["GEO"])
          (.symlink (cfg.PROJECT_DIR ++ [name, "GEO"])) = fs' := congrArg Prod.fst hfin
      have hl' : os_path_islink fs' ((cfg.FILES_DIR ++ [name]) ++ ["GEO"]) = true := by
        rw [← hfs]
        unfold os_path_islink
        rw [lookup_set, if_pos rfl]
      exact provision_eq_of_ready
        (hfs ▸ isdir_set_fresh hsp D1) (hfs ▸ isdir_set_fresh hsp D2)
        (hfs ▸ isdir_set_fresh hsp D3) (hfs ▸ isdir_set_fresh hsp D4)
        (hfs ▸ isdir_set_fresh hsp D5) (hfs ▸ isdir_set_fresh hsp D6)
        (hfs ▸ isdir_set_fresh hsp D7) hl'
    | some e => rw [hsp] at hfin; simp at hfin

/-- C4 witness: provisioning `proj` from an empty filesystem succeeds, and the
theorem yields that the immediate second call is the identity. -/
theorem C4_provision_idempotent_witness :
    ensure_directories_and_symlinks sampleConfig
        (ensure_directories_and_symlinks sampleConfig [] "proj").1 "proj"
      = ((ensure_directories_and_symlinks sampleConfig [] "proj").1, none) :=
  C4_provision_idempotent sampleConfig [] _ "proj" (by decide)

/-- C2.  When the project's `GEO` path is already occupied by a plain
directory, provisioning surfaces an error, that error is a conflict (distinct
from not-found), and the pre-existing directory entry is left in place: no
existing data is destroyed and no symlink replaces the directory. -/
theorem C2_geo_dir_conflict (cfg : Config) (fs : FS) (name : String)
    (hgeo : fs.lookup ((cfg.FILES_DIR ++ [name]) ++ ["GEO"]) = some .dir) :
    ∃ e, (ensure_directories_and_symlinks cfg fs name).2 = some e ∧ e.isConflict = true ∧
      (ensure_directories_and_symlinks cfg fs name).1.lookup
        ((cfg.FILES_DIR ++ [name]) ++ ["GEO"]) = some .dir := by
  simp only [ensure_directories_and_symlinks]
  rcases hR1 : ensure_directory_exists fs (cfg.FILES_DIR ++ [name]) with ⟨fs1, o1⟩
  have E1 : DirExtends fs fs1 := by
    have t := ensure_dirExtends fs (cfg.FILES_DIR ++ [name]); rw [hR1] at t; exact t
  have hg1 := lookup_some_of_dirExtends E1 hgeo
  cases o1 with
  | some e => exact ⟨e, rfl, ensure_err_conflict hR1, hg1⟩
  | none =>
  simp only [andThen_ok]
  rcases hR2 : ensure_directory_exists fs1 ((cfg.FILES_DIR ++ [name]) ++ ["HIP"]) with ⟨fs2, o2⟩
  have E2 : DirExtends fs1 fs2 := by
    have t := ensure_dirExtends fs1 ((cfg.FILES_DIR ++ [name]) ++ ["HIP"]); rw [hR2] at t; exact t
  have hg2 := lookup_some_of_dirExtends E2 hg1
  cases o2 with
  | some e => exact ⟨e, rfl, ensure_err_conflict hR2, hg2⟩
  | none =>
  simp only [andThen_ok]
  rcases hR3 : ensure_directory_exists fs2 ((cfg.FILES_DIR ++ [name]) ++ ["REF"]) with ⟨fs3, o3⟩
  have E3 : DirExtends fs2 fs3 := by
    have t := ensure_dirExtends fs2 ((cfg.FILES_DIR ++ [name]) ++ ["REF"]); rw [hR3] at t; exact t
  have hg3 := lookup_some_of_dirExtends E3 hg2
  cases o3 with
  | some e => exact ⟨e, rfl, ensure_err_conflict hR3, hg3⟩
  | none =>
  simp only [andThen_ok]
  rcases hR4 : ensure_directory_exists fs3 ((cfg.FILES_DIR ++ [name]) ++ ["RENDER"]) with ⟨fs4, o4⟩
  have E4 : DirExtends fs3 fs4 := by
    have t := ensure_dirExtends fs3 ((cfg.FILES_DIR ++ [name]) ++ ["RENDER"]); rw [hR4] at t; exact t
  have hg4 := lookup_some_of_dirExtends E4 hg3
  cases o4 with
  | some e => exact ⟨e, rfl, ensure_err_conflict hR4, hg4⟩
  | none =>
  simp only [andThen_ok]
  rcases hR5 : ensure_directory_exists fs4 ((cfg.FILES_DIR ++ [name]) ++ ["COMP"]) with ⟨fs5, o5⟩
  have E5 : DirExtends fs4 fs5 := by
    have t := ensure_dirExtends fs4 ((cfg.FILES_DIR ++ [name]) ++ ["COMP"]); rw [hR5] at t; exact t
  have hg5 := lookup_some_of_dirExtends E5 hg4
  cases o5 with
  | some e => exact ⟨e, rfl, ensure_err_conflict hR5, hg5⟩
  | none =>
  simp only [andThen_ok]
  rcases hR6 : ensure_directory_exists fs5 (cfg.PROJECT_DIR ++ [name, "GEO"]) with ⟨fs6, o6⟩
  have E6 : DirExtends fs5 fs6 := by
    have t := ensure_dirExtends fs5 (cfg.PROJECT_DIR ++ [name, "GEO"]); rw [hR6] at t; exact t
  have hg6 := lookup_some_of_dirExtends E6 hg5
  cases o6 with
  | some e => exact ⟨e, rfl, ensure_err_conflict hR6, hg6⟩
  | none =>
  simp only [andThen_ok]
  rcases hR7 : ensure_directory_exists fs6 ((cfg.FILES_DIR ++ [name]) ++ ["FLIP"]) with ⟨fs7, o7⟩
  have E7 : DirExtends fs6 fs7 := by
    have t := ensure_dirExtends fs6 ((cfg.FILES_DIR ++ [name]) ++ ["FLIP"]); rw [hR7] at t; exact t
  have hg7 := lookup_some_of_dirExtends E7 hg6
  cases o7 with
  | some e => exact ⟨e, rfl, ensure_err_conflict hR7, hg7⟩
  | none =>
  simp only [andThen_ok]
  have hlink : os_path_islink fs7 ((cfg.FILES_DIR ++ [name]) ++ ["GEO"]) = false := by
    unfold os_path_islink; rw [hg7]
  rw [if_neg (by rw [hlink]; simp)]
  unfold os_symlink
  rw [hg7]
  exact ⟨.fileExists ((cfg.FILES_DIR ++ [name]) ++ ["GEO"]), rfl, rfl, hg7⟩

/-- C2 witness: with `FILES/proj/GEO` a plain directory, provisioning `proj`
errors with a conflict and the directory entry survives. -/
theorem C2_geo_dir_conflict_witness :
    ∃ e, (ensure_directories_and_symlinks sampleConfig occupiedGeoFS "proj").2 = some e ∧
      e.isConflict = true ∧
      (ensure_directories_and_symlinks sampleConfig occupiedGeoFS "proj").1.lookup
        ((sampleConfig.FILES_DIR ++ ["proj"]) ++ ["GEO"]) = some .dir :=
  C2_geo_dir_conflict sampleConfig occupiedGeoFS "proj" (by decide)

/-- C5 counterexample: starting from a state whose `GEO` entry is a stale
symlink to `ELSEWHERE`, provisioning `proj` completes successfully, yet the
`GEO` entry's target is `ELSEWHERE` and not the project-source `GEO`
directory `PROJ/proj/GEO`, contradicting the claimed invariant. -/
theorem C5_symlink_target_counterexample :
    (ensure_directories_and_symlinks sampleConfig staleLinkFS "proj").2 = none ∧
    (ensure_directories_and_symlinks sampleConfig staleLinkFS "proj").1.lookup
      ["FILES", "proj", "GEO"] = some (.symlink ["ELSEWHERE"]) ∧
    (["ELSEWHERE"] : FsPath) ≠ sampleConfig.PROJECT_DIR ++ ["proj", "GEO"] := by decide

/-- C5 (amended).  After a successful provisioning run the project's `GEO`
entry is always a symbolic link — never a plain directory; when no symlink
pre-existed at that path, its target is the project-source-root `GEO`
directory of the project; a pre-existing symlink, however, is left exactly as
it was, even if its target is elsewhere. -/
theorem C5_symlink_invariant_amended (cfg : Config) (fs fs' : FS) (name : String)
    (h : ensure_directories_and_symlinks cfg fs name = (fs', none)) :
    (∃ t, fs'.lookup ((cfg.FILES_DIR ++ [name]) ++ ["GEO"]) = some (.symlink t)) ∧
    (os_path_islink fs ((cfg.FILES_DIR ++ [name]) ++ ["GEO"]) = false →
      fs'.lookup ((cfg.FILES_DIR ++ [name]) ++ ["GEO"])
        = some (.symlink (cfg.PROJECT_DIR ++ [name, "GEO"]))) ∧
    (os_path_islink fs ((cfg.FILES_DIR ++ [name]) ++ ["GEO"]) = true →
      fs'.lookup ((cfg.FILES_DIR ++ [name]) ++ ["GEO"])
        = fs.lookup ((cfg.FILES_DIR ++ [name]) ++ ["GEO"])) := by
  obtain ⟨fs1, fs2, fs3, fs4, fs5, fs6, fs7, h1, h2, h3, h4, h5, h6, h7, hfin⟩ :=
    provision_ok_anatomy h
  have E01 : DirExtends fs fs1 := by
    have t := ensure_dirExtends fs (cfg.FILES_DIR ++ [name]); rw [h1] at t; exact t
  have E12 : DirExtends fs1 fs2 := by
    have t := ensure_dirExtends fs1 ((cfg.FILES_DIR ++ [name]) ++ ["HIP"]); rw [h2] at t; exact t
  have E23 : DirExtends fs2 fs3 := by
    have t := ensure_dirExtends fs2 ((cfg.FILES_DIR ++ [name]) ++ ["REF"]); rw [h3] at t; exact t
  have E34 : DirExtends fs3 fs4 := by
    have t := ensure_dirExtends fs3 ((cfg.FILES_DIR ++ [name]) ++ ["RENDER"]); rw [h4] at t; exact t
  have E45 : DirExtends fs4 fs5 := by
    have t := ensure_dirExtends fs4 ((cfg.FILES_DIR ++ [name]) ++ ["COMP"]); rw [h5] at t; exact t
  have E56 : DirExtends fs5 fs6 := by
    have t := ensure_dirExtends fs5 (cfg.PROJECT_DIR ++ [name, "GEO"]); rw [h6] at t; exact t
  have E67 : DirExtends fs6 fs7 := by
    have t := ensure_dirExtends fs6 ((cfg.FILES_DIR ++ [name]) ++ ["FLIP"]); rw [h7] at t; exact t
  have E07 : DirExtends fs fs7 :=
    dirExtends_trans E01 (dirExtends_trans E12 (dirExtends_trans E23
      (dirExtends_trans E34 (dirExtends_trans E45 (dirExtends_trans E56 E67)))))
  have hlk := islink_of_dirExtends E07 ((cfg.FILES_DIR ++ [name]) ++ ["GEO"])
  by_cases hl : os_path_islink fs7 ((cfg.FILES_DIR ++ [name]) ++ ["GEO"]) = true
  · rw [if_pos hl] at hfin
    have hfs : fs7 = fs' := congrArg Prod.fst hfin
    subst hfs
    have hlf : os_path_islink fs ((cfg.FILES_DIR ++ [name]) ++ ["GEO"]) = true := by
      rw [← hlk]; exact hl
    obtain ⟨t, ht⟩ : ∃ t, fs7.lookup ((cfg.FILES_DIR ++ [name]) ++ ["GEO"])
        = some (.symlink t) := by
      unfold os_path_islink at hl
      cases hsp : fs7.lookup ((cfg.FILES_DIR ++ [name]) ++ ["GEO"]) with
      | none => rw [hsp] at hl; cases hl
      | some e =>
        cases e with
        | dir => rw [hsp] at hl; cases hl
        | file c => rw [hsp] at hl; cases hl
        | symlink t => exact ⟨t, rfl⟩
    refine ⟨⟨t, ht⟩, ?_, ?_⟩
    · intro hcontra; rw [hcontra] at hlf; cases hlf
    · intro _
      rw [ht, (symlink_lookup_iff_of_dirExtends E07 _ t).mp ht]
  · rw [if_neg hl] at hfin
    unfold os_symlink at hfin
    cases hsp : fs7.lookup ((cfg.FILES_DIR ++ [name]) ++ ["GEO"]) with
    | none =>
      rw [hsp] at hfin
      have hfs : fs7.set ((cfg.FILES_DIR ++ [name]) ++ ["GEO"])
          (.symlink (cfg.PROJECT_DIR ++ [name, "GEO"])) = fs' := congrArg Prod.fst hfin
      have hnew : fs'.lookup ((cfg.FILES_DIR ++ [name]) ++ ["GEO"])
          = some (.symlink (cfg.PROJECT_DIR ++ [name, "GEO"])) := by
        rw [← hfs, lookup_set, if_pos rfl]
      refine ⟨⟨_, hnew⟩, fun _ => hnew, ?_⟩
      intro hlf
      rw [← hlk] at hlf
      exact absurd hlf hl
    | some e => rw [hsp] at hfin; simp at hfin

/-- C5 witness: provisioning `proj` on an empty filesystem succeeds and the
amended invariant holds for it (no symlink pre-existed, so the link points at
`PROJ/proj/GEO`). -/
theorem C5_symlink_invariant_amended_witness :
    (∃ t, (ensure_directories_and_symlinks sampleConfig [] "proj").1.lookup
        ((sampleConfig.FILES_DIR ++ ["proj"]) ++ ["GEO"]) = some (.symlink t)) ∧
    (os_path_islink ([] : FS) ((sampleConfig.FILES_DIR ++ ["proj"]) ++ ["GEO"]) = false →
      (ensure_directories_and_symlinks sampleConfig [] "proj").1.lookup
        ((sampleConfig.FILES_DIR ++ ["proj"]) ++ ["GEO"])
        = some (.symlink (sampleConfig.PROJECT_DIR ++ ["proj", "GEO"]))) ∧
    (os_path_islink ([] : FS) ((sampleConfig.FILES_DIR ++ ["proj"]) ++ ["GEO"]) = true →
      (ensure_directories_and_symlinks sampleConfig [] "proj").1.lookup
        ((sampleConfig.FILES_DIR ++ ["proj"]) ++ ["GEO"])
        = FS.lookup ([] : FS) ((sampleConfig.FILES_DIR ++ ["proj"]) ++ ["GEO"])) :=
  C5_symlink_invariant_amended sampleConfig [] _ "proj" (by decide)

/-- C1 counterexample: backing up a project with zero matching files does
report "no .hip files found", but the timestamp directory under the backup
root is created anyway, so a new (empty) snapshot directory exists after the
call, contradicting the claim. -/
theorem C1_empty_backup_counterexample :
    (create_backup emptyProjectFS ["FILES", "proj"] none "TS").2 = .noHipFiles ∧
    emptyProjectFS.lookup ["FILES", "proj", "BACKUPS", "TS"] = none ∧
    (create_backup emptyProjectFS ["FILES", "proj"] none "TS").1.lookup
      ["FILES", "proj", "BACKUPS", "TS"] = some .dir := by decide

/-- C1 (amended).  Backing up a project with zero matching files reports
"nothing to back up", but the timestamp directory under the backup root is
nonetheless created (the directory is made before the glob check), so an
empty snapshot directory does exist after the call. -/
theorem C1_empty_backup_amended (fs fs' : FS) (project_dir : FsPath)
    (backup_dir_arg : Option FsPath) (timestamp : String)
    (h : create_backup fs project_dir backup_dir_arg timestamp = (fs', .noHipFiles)) :
    os_path_isdir fs'
      ((backup_dir_arg.getD (project_dir ++ ["BACKUPS"])) ++ [timestamp]) = true := by
  simp only [create_backup] at h
  rcases hE : ensure_directory_exists fs
      ((backup_dir_arg.getD (project_dir ++ ["BACKUPS"])) ++ [timestamp]) with ⟨fs1, o⟩
  rw [hE] at h
  cases o with
  | some e => simp at h
  | none =>
    dsimp only at h
    have hdir : os_path_isdir fs1
        ((backup_dir_arg.getD (project_dir ++ ["BACKUPS"])) ++ [timestamp]) = true :=
      ensure_ok_isdir (by simp) hE
    by_cases hg : (glob_hip fs1 project_dir).isEmpty
    · rw [if_pos hg] at h
      have : fs1 = fs' := congrArg Prod.fst h
      rw [← this]
      exact hdir
    · rw [if_neg hg] at h
      rcases hC : copy_files fs1 project_dir (glob_hip fs1 project_dir)
          ((backup_dir_arg.getD (project_dir ++ ["BACKUPS"])) ++ [timestamp]) with ⟨fs2, o2⟩
      rw [hC] at h
      cases o2 with
      | some e => simp at h
      | none => simp at h

/-- C1 witness: the amended statement instantiated on a project with no
`.hip` file: the run reports `noHipFiles` and the snapshot directory exists. -/
theorem C1_empty_backup_amended_witness :
    create_backup emptyProjectFS ["FILES", "proj"] none "TS"
        = ((create_backup emptyProjectFS ["FILES", "proj"] none "TS").1, .noHipFiles) ∧
    os_path_isdir (create_backup emptyProjectFS ["FILES", "proj"] none "TS").1
      (((none : Option FsPath).getD (["FILES", "proj"] ++ ["BACKUPS"])) ++ ["TS"]) = true :=
  ⟨by decide, C1_empty_backup_amended emptyProjectFS _ ["FILES", "proj"] none "TS" (by decide)⟩

/-- C6.  Restoring a timestamp whose snapshot directory does not exist under
the backup root reports "snapshot not found", performs no copy and creates no
`RESTORED_<timestamp>` directory: the filesystem is returned unchanged. -/
theorem C6_restore_not_found (fs : FS) (project_dir : FsPath) (timestamp : String)
    (h : os_path_exists fs (project_dir ++ ["BACKUPS", timestamp]) = false) :
    restore_backup fs project_dir timestamp = (fs, .snapshotNotFound) := by
  simp only [restore_backup]
  rw [h]
  simp

/-- C6 witness: restoring timestamp `NOPE` on a project with no snapshots
returns the state unchanged with a not-found report. -/
theorem C6_restore_not_found_witness :
    os_path_exists emptyProjectFS (["FILES", "proj"] ++ ["BACKUPS", "NOPE"]) = false ∧
    restore_backup emptyProjectFS ["FILES", "proj"] "NOPE"
      = (emptyProjectFS, .snapshotNotFound) :=
  ⟨by decide, C6_restore_not_found emptyProjectFS ["FILES", "proj"] "NOPE" (by decide)⟩

/-- C10.  When restore reports that the (existing) snapshot holds no matching
files, the `RESTORED_<timestamp>` directory has nonetheless been created in
the resulting state: the directory is made before the glob check. -/
theorem C10_restore_creates_dir (fs fs' : FS) (project_dir : FsPath) (timestamp : String)
    (h : restore_backup fs project_dir timestamp = (fs', .noHipFilesInBackup)) :
    os_path_isdir fs' (project_dir ++ ["RESTORED_" ++ timestamp]) = true := by
  simp only [restore_backup] at h
  by_cases hex : os_path_exists fs (project_dir ++ ["BACKUPS", timestamp]) = true
  · rw [if_pos hex] at h
    rcases hE : ensure_directory_exists fs (project_dir ++ ["RESTORED_" ++ timestamp])
      with ⟨fs1, o⟩
    rw [hE] at h
    cases o with
    | some e => simp at h
    | none =>
      dsimp only at h
      have hdir : os_path_isdir fs1 (project_dir ++ ["RESTORED_" ++ timestamp]) = true :=
        ensure_ok_isdir (by simp) hE
      by_cases hg : (glob_hip fs1 (project_dir ++ ["BACKUPS", timestamp])).isEmpty
      · rw [if_pos hg] at h
        have : fs1 = fs' := congrArg Prod.fst h
        rw [← this]
        exact hdir
      · rw [if_neg hg] at h
        rcases hC : copy_files fs1 (project_dir ++ ["BACKUPS", timestamp])
            (glob_hip fs1 (project_dir ++ ["BACKUPS", timestamp]))
            (project_dir ++ ["RESTORED_" ++ timestamp]) with ⟨fs2, o2⟩
        rw [hC] at h
        cases o2 with
        | some e => simp at h
        | none => simp at h
  · rw [if_neg hex] at h
    simp at h

/-- C10 witness: restoring timestamp `TS` from an existing but empty snapshot
reports `noHipFilesInBackup`, and the `RESTORED_TS` directory exists. -/
theorem C10_restore_creates_dir_witness :
    restore_backup emptySnapshotFS ["FILES", "proj"] "TS"
        = ((restore_backup emptySnapshotFS ["FILES", "proj"] "TS").1, .noHipFilesInBackup) ∧
    os_path_isdir (restore_backup emptySnapshotFS ["FILES", "proj"] "TS").1
      (["FILES", "proj"] ++ ["RESTORED_" ++ "TS"]) = true :=
  ⟨by decide, C10_restore_creates_dir emptySnapshotFS _ ["FILES", "proj"] "TS" (by decide)⟩

set_option maxHeartbeats 1600000 in
/-- C3.  Round trip: for any file contents `A` and `B`, backing up a project
holding exactly `a.hip` and `b.hip`, then restoring the very timestamp the
backup used, produces a `RESTORED_<timestamp>` directory holding copies of
`a.hip` and `b.hip` whose contents are byte-identical to the originals (which
are themselves untouched). -/
theorem C3_round_trip (A B : String) :
    (create_backup (twoHipFS A B) ["FILES", "proj"] none "20240101_120000").2
        = .backedUp ["a.hip", "b.hip"] ∧
    (restore_backup (create_backup (twoHipFS A B) ["FILES", "proj"] none "20240101_120000").1
        ["FILES", "proj"] "20240101_120000").2 = .restored ["b.hip", "a.hip"] ∧
    (restore_backup (create_backup (twoHipFS A B) ["FILES", "proj"] none "20240101_120000").1
        ["FILES", "proj"] "20240101_120000").1.lookup
        ["FILES", "proj", "RESTORED_20240101_120000", "a.hip"] = some (.file A) ∧
    (restore_backup (create_backup (twoHipFS A B) ["FILES", "proj"] none "20240101_120000").1
        ["FILES", "proj"] "20240101_120000").1.lookup
        ["FILES", "proj", "RESTORED_20240101_120000", "b.hip"] = some (.file B) ∧
    (restore_backup (create_backup (twoHipFS A B) ["FILES", "proj"] none "20240101_120000").1
        ["FILES", "proj"] "20240101_120000").1.lookup
        ["FILES", "proj", "a.hip"] = some (.file A) ∧
    (restore_backup (create_backup (twoHipFS A B) ["FILES", "proj"] none "20240101_120000").1
        ["FILES", "proj"] "20240101_120000").1.lookup
        ["FILES", "proj", "b.hip"] = some (.file B) :=
  ⟨rfl, rfl, rfl, rfl, rfl, rfl⟩

/-- C3 witness: the round trip instantiated at the concrete contents `A`
and `B`. -/
theorem C3_round_trip_witness :
    (create_backup (twoHipFS "A" "B") ["FILES", "proj"] none "20240101_120000").2
        = .backedUp ["a.hip", "b.hip"] ∧
    (restore_backup (create_backup (twoHipFS "A" "B") ["FILES", "proj"] none "20240101_120000").1
        ["FILES", "proj"] "20240101_120000").1.lookup
        ["FILES", "proj", "RESTORED_20240101_120000", "a.hip"] = some (.file "A") ∧
    (restore_backup (create_backup (twoHipFS "A" "B") ["FILES", "proj"] none "20240101_120000").1
        ["FILES", "proj"] "20240101_120000").1.lookup
        ["FILES", "proj", "RESTORED_20240101_120000", "b.hip"] = some (.file "B") :=
  ⟨(C3_round_trip "A" "B").1, (C3_round_trip "A" "B").2.2.1, (C3_round_trip "A" "B").2.2.2.1⟩

/-- C7.  When the files root exists and the listed project directories have
pairwise distinct last-access times, the full listing (`show_all`) is ordered
by last-access time strictly descending and is a permutation of the set of
project directories, and the default listing is its truncation to the first 6
entries. -/
theorem C7_listing_order (cfg : Config) (fs : FS) (atime : FsPath → Nat)
    (hex : os_path_exists fs cfg.FILES_DIR = true)
    (hdist : (project_candidates cfg fs).Pairwise
      (fun a b => atime (cfg.FILES_DIR ++ [a]) ≠ atime (cfg.FILES_DIR ++ [b]))) :
    (list_recent_projects cfg fs atime true).Pairwise
      (fun a b => atime (cfg.FILES_DIR ++ [b]) < atime (cfg.FILES_DIR ++ [a])) ∧
    (list_recent_projects cfg fs atime true).Perm (project_candidates cfg fs) ∧
    list_recent_projects cfg fs atime false
      = (list_recent_projects cfg fs atime true).take 6 := by
  have hT : list_recent_projects cfg fs atime true
      = if (project_candidates cfg fs).isEmpty = true then []
        else (project_candidates cfg fs).mergeSort (atimeDesc cfg atime) := by
    simp [list_recent_projects, hex]
  have hF : list_recent_projects cfg fs atime false
      = if (project_candidates cfg fs).isEmpty = true then []
        else ((project_candidates cfg fs).mergeSort (atimeDesc cfg atime)).take 6 := by
    simp [list_recent_projects, hex]
  by_cases hP : (project_candidates cfg fs).isEmpty = true
  · rw [hT, hF, if_pos hP, if_pos hP]
    have : project_candidates cfg fs = [] := List.isEmpty_iff.mp hP
    rw [this]
    exact ⟨List.Pairwise.nil, List.Perm.refl [], rfl⟩
  · rw [hT, hF, if_neg hP, if_neg hP]
    have hperm : List.Perm
        ((project_candidates cfg fs).mergeSort (atimeDesc cfg atime))
        (project_candidates cfg fs) := List.mergeSort_perm _ _
    have htrans : ∀ (a b c : String), atimeDesc cfg atime a b → atimeDesc cfg atime b c →
        atimeDesc cfg atime a c := by
      intro a b c hab hbc
      simp only [atimeDesc, decide_eq_true_eq] at hab hbc ⊢
      exact Nat.le_trans hbc hab
    have htotal : ∀ (a b : String), atimeDesc cfg atime a b || atimeDesc cfg atime b a := by
      intro a b
      simp only [atimeDesc, Bool.or_eq_true, decide_eq_true_eq]
      exact Nat.le_total _ _
    have hsorted := List.sorted_mergeSort htrans htotal (project_candidates cfg fs)
    have hdist' : ((project_candidates cfg fs).mergeSort (atimeDesc cfg atime)).Pairwise
        (fun a b => atime (cfg.FILES_DIR ++ [a]) ≠ atime (cfg.FILES_DIR ++ [b])) :=
      (hperm.pairwise_iff (fun {a b} h => Ne.symm h)).mpr hdist
    refine ⟨?_, hperm, rfl⟩
    have hcomb := hsorted.and hdist'
    exact hcomb.imp (fun {a b} hab =>
      Nat.lt_of_le_of_ne (of_decide_eq_true hab.1) (Ne.symm hab.2))

/-- C7 witness: three projects with distinct access times (`p2` newest, `p3`
middle, `p1` oldest) are listed in that order. -/
theorem C7_listing_order_witness :
    (list_recent_projects sampleConfig threeProjectsFS sampleAtime true).Pairwise
      (fun a b => sampleAtime (sampleConfig.FILES_DIR ++ [b])
        < sampleAtime (sampleConfig.FILES_DIR ++ [a])) ∧
    (list_recent_projects sampleConfig threeProjectsFS sampleAtime true).Perm
      (project_candidates sampleConfig threeProjectsFS) ∧
    list_recent_projects sampleConfig threeProjectsFS sampleAtime false
      = (list_recent_projects sampleConfig threeProjectsFS sampleAtime true).take 6 :=
  C7_listing_order sampleConfig threeProjectsFS sampleAtime (by decide) (by decide)

/-- C8.  Selection resolution: choice `0` is a new-project request whose name
is rejected (with a retry and no state change) when empty after stripping and
accepted otherwise; a digit choice that is a 1-based index into the displayed
list resolves to that candidate; every other input is rejected with a retry
and leaves the current-project state untouched (no crash: the function is
total). -/
theorem C8_selection_resolution (current : Option String) (projects : List String)
    (raw_choice raw_new_name : String) :
    (py_lower (py_strip raw_choice) = "0" → py_strip raw_new_name = "" →
      select_project_step current projects raw_choice raw_new_name
        = (current, .retryPrompt)) ∧
    (py_lower (py_strip raw_choice) = "0" → py_strip raw_new_name ≠ "" →
      select_project_step current projects raw_choice raw_new_name
        = (some (py_strip raw_new_name), .createdNew (py_strip raw_new_name))) ∧
    (py_isdigit (py_lower (py_strip raw_choice)) = true →
      1 ≤ py_int (py_lower (py_strip raw_choice)) →
      py_int (py_lower (py_strip raw_choice)) ≤ projects.length →
      select_project_step current projects raw_choice raw_new_name
        = (some (projects.getD (py_int (py_lower (py_strip raw_choice)) - 1) ""),
           .selectedExisting (projects.getD (py_int (py_lower (py_strip raw_choice)) - 1) ""))) ∧
    (py_lower (py_strip raw_choice) ≠ "0" →
      ¬(py_isdigit (py_lower (py_strip raw_choice)) = true ∧
        1 ≤ py_int (py_lower (py_strip raw_choice)) ∧
        py_int (py_lower (py_strip raw_choice)) ≤ projects.length) →
      select_project_step current projects raw_choice raw_new_name
        = (current, .retryPrompt)) := by
  refine ⟨?_, ?_, ?_, ?_⟩
  · intro h0 hname
    simp [select_project_step, h0, hname]
  · intro h0 hname
    simp [select_project_step, h0, hname]
  · intro hdig h1 h2
    have h0 : py_lower (py_strip raw_choice) ≠ "0" := by
      intro hx
      rw [hx] at h1
      simp [py_int] at h1
    simp [select_project_step, h0, hdig, h1, h2]
  · intro h0 hbad
    simp only [select_project_step]
    rw [if_neg h0, if_neg hbad]

/-- C8 witness: with three listed projects, input `5` is rejected with a
retry and the current-project state (here unset) is unchanged; input ` 2 `
resolves to the second project; input `0` with a whitespace-only new name is
rejected without touching the previously current project `q`. -/
theorem C8_selection_resolution_witness :
    select_project_step none ["p1", "p2", "p3"] "5" "whatever"
      = (none, .retryPrompt) ∧
    select_project_step none ["p1", "p2", "p3"] " 2 " "x"
      = (some "p2", .selectedExisting "p2") ∧
    select_project_step (some "q") ["p1", "p2", "p3"] "0" "   "
      = (some "q", .retryPrompt) :=
  ⟨(C8_selection_resolution none ["p1", "p2", "p3"] "5" "whatever").2.2.2
      (by decide) (by decide),
   (C8_selection_resolution none ["p1", "p2", "p3"] " 2 " "x").2.2.1
      (by decide) (by decide) (by decide),
   (C8_selection_resolution (some "q") ["p1", "p2", "p3"] "0" "   ").1
      (by decide) (by decide)⟩

/-! ### Lemmas about the interactive controller -/

theorem loop_backup_state (cfg : Config) :
    ∀ (inputs : List MenuInput) (pn s : Option String) (pth : FsPath),
      (s, Event.backupRun pth) ∈ (interactive_loop cfg inputs pn).trace → s.isSome = true := by
  intro inputs
  induction inputs with
  | nil => intro pn s pth h; simp [interactive_loop] at h
  | cons inp rest ih =>
    intro pn s pth h
    cases inp with
    | selectChoice name =>
      simp only [interactive_loop, List.mem_cons, Prod.mk.injEq] at h
      rcases h with ⟨_, h⟩ | h
      · cases h
      · exact ih _ _ _ h
    | backupChoice =>
      cases pn with
      | some p =>
        simp only [interactive_loop, List.mem_cons, Prod.mk.injEq] at h
        rcases h with ⟨hs, _⟩ | h
        · rw [hs]; rfl
        · exact ih _ _ _ h
      | none =>
        simp only [interactive_loop, List.mem_cons, Prod.mk.injEq] at h
        rcases h with ⟨_, h⟩ | h
        · cases h
        · exact ih _ _ _ h
    | restoreTsChoice ts =>
      cases pn with
      | some p =>
        simp only [interactive_loop, List.mem_cons, Prod.mk.injEq] at h
        rcases h with ⟨_, h⟩ | h
        · cases h
        · exact ih _ _ _ h
      | none =>
        simp only [interactive_loop, List.mem_cons, Prod.mk.injEq] at h
        rcases h with ⟨_, h⟩ | h
        · cases h
        · exact ih _ _ _ h
    | exitChoice =>
      cases pn with
      | some p =>
        simp only [interactive_loop, List.mem_cons, List.not_mem_nil, or_false,
          Prod.mk.injEq] at h
        cases h.2
      | none =>
        simp only [interactive_loop, List.mem_cons, List.not_mem_nil, or_false,
          Prod.mk.injEq] at h
        cases h.2
    | badChoice sIn =>
      simp only [interactive_loop, List.mem_cons, Prod.mk.injEq] at h
      rcases h with ⟨_, h⟩ | h
      · cases h
      · exact ih _ _ _ h

theorem loop_restore_state (cfg : Config) :
    ∀ (inputs : List MenuInput) (pn s : Option String) (pth : FsPath) (ts : String),
      (s, Event.restoreRun pth ts) ∈ (interactive_loop cfg inputs pn).trace →
        s.isSome = true := by
  intro inputs
  induction inputs with
  | nil => intro pn s pth ts h; simp [interactive_loop] at h
  | cons inp rest ih =>
    intro pn s pth ts h
    cases inp with
    | selectChoice name =>
      simp only [interactive_loop, List.mem_cons, Prod.mk.injEq] at h
      rcases h with ⟨_, h⟩ | h
      · cases h
      · exact ih _ _ _ _ h
    | backupChoice =>
      cases pn with
      | some p =>
        simp only [interactive_loop, List.mem_cons, Prod.mk.injEq] at h
        rcases h with ⟨_, h⟩ | h
        · cases h
        · exact ih _ _ _ _ h
      | none =>
        simp only [interactive_loop, List.mem_cons, Prod.mk.injEq] at h
        rcases h with ⟨_, h⟩ | h
        · cases h
        · exact ih _ _ _ _ h
    | restoreTsChoice ts' =>
      cases pn with
      | some p =>
        simp only [interactive_loop, List.mem_cons, Prod.mk.injEq] at h
        rcases h with ⟨hs, _⟩ | h
        · rw [hs]; rfl
        · exact ih _ _ _ _ h
      | none =>
        simp only [interactive_loop, List.mem_cons, Prod.mk.injEq] at h
        rcases h with ⟨_, h⟩ | h
        · cases h
        · exact ih _ _ _ _ h
    | exitChoice =>
      cases pn with
      | some p =>
        simp only [interactive_loop, List.mem_cons, List.not_mem_nil, or_false,
          Prod.mk.injEq] at h
        cases h.2
      | none =>
        simp only [interactive_loop, List.mem_cons, List.not_mem_nil, or_false,
          Prod.mk.injEq] at h
        cases h.2
    | badChoice sIn =>
      simp only [interactive_loop, List.mem_cons, Prod.mk.injEq] at h
      rcases h with ⟨_, h⟩ | h
      · cases h
      · exact ih _ _ _ _ h

theorem loop_launch_iff (cfg : Config) :
    ∀ (inputs : List MenuInput) (pn : Option String) (p : String),
      (∃ s, (s, Event.launchedXterm p) ∈ (interactive_loop cfg inputs pn).trace) ↔
        ((interactive_loop cfg inputs pn).exited = true ∧
          (interactive_loop cfg inputs pn).final = some p) := by
  intro inputs
  induction inputs with
  | nil =>
    intro pn p
    simp [interactive_loop]
  | cons inp rest ih =>
    intro pn p
    cases inp with
    | selectChoice name =>
      simp only [interactive_loop, List.mem_cons, Prod.mk.injEq]
      constructor
      · rintro ⟨s, ⟨_, hev⟩ | h⟩
        · cases hev
        · exact (ih (some name) p).mp ⟨s, h⟩
      · intro h
        obtain ⟨s, hs⟩ := (ih (some name) p).mpr h
        exact ⟨s, Or.inr hs⟩
    | backupChoice =>
      cases pn with
      | some q =>
        simp only [interactive_loop, List.mem_cons, Prod.mk.injEq]
        constructor
        · rintro ⟨s, ⟨_, hev⟩ | h⟩
          · cases hev
          · exact (ih (some q) p).mp ⟨s, h⟩
        · intro h
          obtain ⟨s, hs⟩ := (ih (some q) p).mpr h
          exact ⟨s, Or.inr hs⟩
      | none =>
        simp only [interactive_loop, List.mem_cons, Prod.mk.injEq]
        constructor
        · rintro ⟨s, ⟨_, hev⟩ | h⟩
          · cases hev
          · exact (ih none p).mp ⟨s, h⟩
        · intro h
          obtain ⟨s, hs⟩ := (ih none p).mpr h
          exact ⟨s, Or.inr hs⟩
    | restoreTsChoice ts =>
      cases pn with
      | some q =>
        simp only [interactive_loop, List.mem_cons, Prod.mk.injEq]
        constructor
        · rintro ⟨s, ⟨_, hev⟩ | h⟩
          · cases hev
          · exact (ih (some q) p).mp ⟨s, h⟩
        · intro h
          obtain ⟨s, hs⟩ := (ih (some q) p).mpr h
          exact ⟨s, Or.inr hs⟩
      | none =>
        simp only [interactive_loop, List.mem_cons, Prod.mk.injEq]
        constructor
        · rintro ⟨s, ⟨_, hev⟩ | h⟩
          · cases hev
          · exact (ih none p).mp ⟨s, h⟩
        · intro h
          obtain ⟨s, hs⟩ := (ih none p).mpr h
          exact ⟨s, Or.inr hs⟩
    | exitChoice =>
      cases pn with
      | some q => simp [interactive_loop, eq_comm]
      | none => simp [interactive_loop]
    | badChoice sIn =>
      simp only [interactive_loop, List.mem_cons, Prod.mk.injEq]
      constructor
      · rintro ⟨s, ⟨_, hev⟩ | h⟩
        · cases hev
        · exact (ih pn p).mp ⟨s, h⟩
      · intro h
        obtain ⟨s, hs⟩ := (ih pn p).mpr h
        exact ⟨s, Or.inr hs⟩

theorem loop_warn_of_exit_none (cfg : Config) :
    ∀ (inputs : List MenuInput) (pn : Option String),
      (interactive_loop cfg inputs pn).exited = true →
      (interactive_loop cfg inputs pn).final = none →
      (none, Event.launchSkippedWarning) ∈ (interactive_loop cfg inputs pn).trace := by
  intro inputs
  induction inputs with
  | nil => intro pn hex _; simp [interactive_loop] at hex
  | cons inp rest ih =>
    intro pn hex hfin
    cases inp with
    | selectChoice name =>
      simp only [interactive_loop] at hex hfin ⊢
      exact List.mem_cons_of_mem _ (ih (some name) hex hfin)
    | backupChoice =>
      cases pn with
      | some q =>
        simp only [interactive_loop] at hex hfin ⊢
        exact List.mem_cons_of_mem _ (ih (some q) hex hfin)
      | none =>
        simp only [interactive_loop] at hex hfin ⊢
        exact List.mem_cons_of_mem _ (ih none hex hfin)
    | restoreTsChoice ts =>
      cases pn with
      | some q =>
        simp only [interactive_loop] at hex hfin ⊢
        exact List.mem_cons_of_mem _ (ih (some q) hex hfin)
      | none =>
        simp only [interactive_loop] at hex hfin ⊢
        exact List.mem_cons_of_mem _ (ih none hex hfin)
    | exitChoice =>
      cases pn with
      | some q => simp [interactive_loop] at hfin
      | none => simp [interactive_loop]
    | badChoice sIn =>
      simp only [interactive_loop] at hex hfin ⊢
      exact List.mem_cons_of_mem _ (ih pn hex hfin)

/-- C9.  Controller state machine: in every run of the interactive loop (a)
backup is never invoked while no project is selected, (b) restore is never
invoked while no project is selected — with no project, those choices emit
the "No project selected." error and the state continues unchanged —, and on
exit the launcher hand-off happens if and only if the loop was left through
the exit choice with a project selected; when it exits with none selected,
the warning is reported instead. -/
theorem C9_controller_state_machine (cfg : Config) (inputs : List MenuInput) :
    (∀ s pth, (s, Event.backupRun pth) ∈ (interactive_mode cfg inputs).trace →
      s.isSome = true) ∧
    (∀ s pth ts, (s, Event.restoreRun pth ts) ∈ (interactive_mode cfg inputs).trace →
      s.isSome = true) ∧
    (∀ p, (∃ s, (s, Event.launchedXterm p) ∈ (interactive_mode cfg inputs).trace) ↔
      ((interactive_mode cfg inputs).exited = true ∧
        (interactive_mode cfg inputs).final = some p)) ∧
    ((interactive_mode cfg inputs).exited = true →
      (interactive_mode cfg inputs).final = none →
      (none, Event.launchSkippedWarning) ∈ (interactive_mode cfg inputs).trace) ∧
    (∀ rest, interactive_loop cfg (MenuInput.backupChoice :: rest) none
      = ⟨(none, Event.noProjectError) :: (interactive_loop cfg rest none).trace,
         (interactive_loop cfg rest none).final,
         (interactive_loop cfg rest none).exited⟩) ∧
    (∀ rest ts, interactive_loop cfg (MenuInput.restoreTsChoice ts :: rest) none
      = ⟨(none, Event.noProjectError) :: (interactive_loop cfg rest none).trace,
         (interactive_loop cfg rest none).final,
         (interactive_loop cfg rest none).exited⟩) :=
  ⟨fun s pth h => loop_backup_state cfg inputs none s pth h,
   fun s pth ts h => loop_restore_state cfg inputs none s pth ts h,
   fun p => loop_launch_iff cfg inputs none p,
   fun hex hfin => loop_warn_of_exit_none cfg inputs none hex hfin,
   fun _ => rfl, fun _ _ => rfl⟩

/-- C9 witness: in the run select `p`, backup, exit, the backup event occurs
with `p` selected and the launcher hand-off to `p` happens on exit. -/
theorem C9_controller_state_machine_witness :
    ((some "p" : Option String).isSome = true) ∧
    (∃ s, (s, Event.launchedXterm "p") ∈
      (interactive_mode sampleConfig
        [MenuInput.selectChoice "p", MenuInput.backupChoice, MenuInput.exitChoice]).trace) :=
  ⟨(C9_controller_state_machine sampleConfig
      [MenuInput.selectChoice "p", MenuInput.backupChoice, MenuInput.exitChoice]).1
      (some "p") (sampleConfig.FILES_DIR ++ ["p"]) (by decide),
   ((C9_controller_state_machine sampleConfig
      [MenuInput.selectChoice "p", MenuInput.backupChoice, MenuInput.exitChoice]).2.2.1
      "p").mpr (by decide)⟩

end FxEnv
